import Mathlib

/-!
Verification of the local motion-planning layer in
`src/navigation/local_planner_behavior.py` (class `LocalPlanner`).

Shallow embedding notes:
* Waypoints carry a world pose (x, y, yaw) over `ℚ`; the Python code holds
  opaque CARLA waypoint handles and reads exactly these fields.
* Python `deque`s are modelled as Lean lists read from the front.  The
  `maxlen` bounds (20000 for the queue, 10000 for the rrt buffer) are never
  reached by any operation studied here, so eviction is not modelled.
* Fallible Python code is modelled in `Except PyErr`: an uncaught Python
  exception becomes `.error e`.  (Python mutates its deques before raising;
  the post-raise state is unobservable to the caller of `run_step`, which is
  the only entry point modelled, so `Except` discards it.)
* Floating-point trigonometry (lines 300-309 of the source, the goal-cell
  geometry, and `math` / PID internals) cannot be embedded exactly; those
  values only feed external collaborators, so they appear as fields of the
  collaborator context `Ctx`.  The repository's own `pixel_to_world`
  function is additionally embedded in full over `ℝ` as
  `pixel_to_world_real` for the degenerate-geometry claim.
-/

/-- `RoadOption` enumeration, lines 27-38 of the source. -/
inductive RoadOption
  | VOID
  | LEFT
  | RIGHT
  | STRAIGHT
  | LANEFOLLOW
  | CHANGELANELEFT
  | CHANGELANERIGHT
deriving DecidableEq, Repr

/-- A CARLA waypoint as the planner observes it: a world pose
(`transform.location.x/.y`, `transform.rotation.yaw`). -/
structure Waypoint where
  x : ℚ
  y : ℚ
  yaw : ℚ
deriving DecidableEq, Repr

/-- An element of `waypoints_queue` / `_waypoint_buffer`:
a `(waypoint, RoadOption)` pair. -/
abbrev PlanEntry := Waypoint × RoadOption

/-- `carla.VehicleControl` restricted to the fields `run_step` sets/returns. -/
structure VehicleControl where
  steer : ℚ
  throttle : ℚ
  brake : ℚ
  hand_brake : Bool
  manual_gear_shift : Bool
deriving DecidableEq, Repr

/-- Python exceptions that the modelled code can raise. -/
inductive PyErr
  | indexError
  | typeError
  | attributeError
  | zeroDivisionError
deriving DecidableEq, Repr

/-- PID gain dictionary `{K_P, K_D, K_I, dt}` (lines 120-139). -/
structure PIDArgs where
  K_P : ℚ
  K_D : ℚ
  K_I : ℚ
  dt : ℚ
deriving DecidableEq, Repr

/-- `LocalPlanner.FPS = 20` (line 57); `dt = 1.0 / FPS`. -/
def FPS : ℚ := 20

/-- Lateral highway gains (lines 120-124). -/
def args_lat_hw_dict : PIDArgs := ⟨0.75, 0.02, 0.4, 1 / FPS⟩

/-- Lateral city gains (lines 125-129). -/
def args_lat_city_dict : PIDArgs := ⟨0.58, 0.02, 0.5, 1 / FPS⟩

/-- Longitudinal highway gains (lines 130-134). -/
def args_long_hw_dict : PIDArgs := ⟨0.37, 0.024, 0.032, 1 / FPS⟩

/-- Longitudinal city gains (lines 135-139). -/
def args_long_city_dict : PIDArgs := ⟨0.15, 0.05, 0.07, 1 / FPS⟩

/-! ## Occupancy Grid Builder (`occupancy_grid`, lines 196-220)

The input is the already-grayscale image (the `cv2.cvtColor` conversion is an
external OpenCV call on the perception image; the classifier below consumes
its single-channel result), a rectangular array of byte values.  The numpy
assignments are all cell-wise masks executed in source order:
`grid = ones`, then `grid[img == 0] = 0`, `grid[img == 150] = 0`, then
`grid[img == i] = 0` for every value `i` whose frequency is `< 500`,
and finally `grid[img == 164] = 0.5`. -/

/-- Number of occurrences of pixel value `v` in the image, i.e. the
`pixel_freq` entry that `np.unique(img, return_counts=True)` yields for `v`
(line 201). -/
def countVal (img : List (List Nat)) (v : Nat) : Nat :=
  (img.map (fun row => (row.filter (fun p => p == v)).length)).sum

/-- The grid value that the source's sequence of masked assignments leaves
for a pixel of value `p` (the later assignment wins, so the ego value 164 is
applied last, the rare-value loop before it, the palette values 0/150 before
that, over the initial value 1). -/
def gridCell (img : List (List Nat)) (p : Nat) : ℚ :=
  if p = 164 then 0.5
  else if p = 0 ∨ p = 150 then 0
  else if countVal img p < 500 then 0
  else 1

/-- `LocalPlanner.occupancy_grid` (lines 196-220): cell-wise classification
of the grayscale image. -/
def occupancy_grid (img : List (List Nat)) : List (List ℚ) :=
  img.map (fun row => row.map (gridCell img))

/-! ## Coordinate Mapper (`pixel_to_world`, lines 223-238)

Embedded over `ℝ` (idealising Python floats).  The source computes
`alpha = math.asin(dx / d)` with no guard: when the requested cell is the
sensor origin `(75, 168)`, `d = 0.0` and the division raises
`ZeroDivisionError`; that raise is modelled as `none`. -/

/-- `LocalPlanner.pixel_to_world` (lines 223-238), anchored at the current
vehicle pose `(cw_x, cw_y, cw_yaw)`.  Returns `none` exactly where the
Python code raises `ZeroDivisionError` (`dx / d` with `d = 0`). -/
noncomputable def pixel_to_world_real (cw_x cw_y cw_yaw : ℝ) (a b : Int) :
    Option (ℝ × ℝ) :=
  let dx : ℝ := |(a : ℝ) - 75|
  let d : ℝ := Real.sqrt (((a : ℝ) - 75) ^ 2 + ((b : ℝ) - 168) ^ 2)
  if d = 0 then none
  else
    let alpha := Real.arcsin (dx / d)
    let gamma := cw_yaw * Real.pi / 180 + alpha
    let dm := d / 4
    some (cw_x + dm * Real.sin gamma, cw_y + dm * Real.cos gamma)

/-! ## Waypoint buffering (`run_step`, lines 266-278)

When `_waypoint_buffer` is empty, up to `_buffer_size = 5` iterations each
first pop four entries off the queue front unguarded and then pop a fifth
into the buffer; the `else: break` only guards the state of the queue at the
*top* of an iteration, so a queue that goes empty during the five inner pops
raises `IndexError` (`deque.popleft` from an empty deque). -/

/-- One pass of the buffering loop: `n` remaining iterations of
`for i in range(self._buffer_size)`; returns the final
`(waypoints_queue, _waypoint_buffer)` pair or the raised `IndexError`. -/
def refill_go : Nat → List PlanEntry → List PlanEntry →
    Except PyErr (List PlanEntry × List PlanEntry)
  | 0, q, buf => .ok (q, buf)
  | n + 1, q, buf =>
    match q with
    | [] => .ok ([], buf)
    | _ :: _ :: _ :: _ :: e :: rest => refill_go n rest (buf ++ [e])
    | _ :: _ => .error .indexError

/-- The whole buffering step of `run_step` (lines 266-278), run when the
buffer is empty: five iterations starting from an empty buffer. -/
def refill_buffer (q : List PlanEntry) :
    Except PyErr (List PlanEntry × List PlanEntry) :=
  refill_go 5 q []

/-! ## Purge of consumed waypoints (`run_step`, lines 379-389) -/

/-- The `max_index` scan of lines 381-386: fold over the buffer keeping the
highest index whose entry satisfies `qual`
(`distance_vehicle(waypoint, vehicle_transform) < self._min_distance`). -/
def max_qual_aux (qual : PlanEntry → Bool) :
    List PlanEntry → Nat → Option Nat → Option Nat
  | [], _, best => best
  | e :: rest, i, best =>
      max_qual_aux qual rest (i + 1) (if qual e then some i else best)

/-- `max_index` after the scan (with `none` standing for the sentinel `-1`). -/
def max_qual_index (qual : PlanEntry → Bool) (l : List PlanEntry) :
    Option Nat :=
  max_qual_aux qual l 0 none

/-- Lines 387-389: pop `max_index + 1` entries from the buffer front
(`popleft` executed `max_index + 1` times), a no-op when no entry
qualified. -/
def purge_buffer (qual : PlanEntry → Bool) (l : List PlanEntry) :
    List PlanEntry :=
  match max_qual_index qual l with
  | none => l
  | some m => l.drop (m + 1)

/-! ## Debug circles drawn on the grid (`run_step`, lines 314-315)

`cv2.circle(grid, centre, 3, colour, 3)` is an external OpenCV call on the
same numpy array that was just built; it is modelled from OpenCV's
documented semantics: a circle of radius 3 drawn with line thickness 3
paints the annulus of in-bounds cells whose distance to the centre lies in
`[radius - thickness/2, radius + thickness/2]`, i.e. squared distance in
`[4, 16]`.  On the single-channel float grid the painted value is the first
component of the colour tuples `(0,255,0)` / `(0,0,255)`, namely `0`.
OpenCV points are `(x, y) = (column, row)`. -/

/-- Whether grid cell (column `x`, row `y`) is covered by the drawn circle
of radius 3, thickness 3 centred at `cen`. -/
def inRing (cen : Int × Int) (x y : Nat) : Bool :=
  let dsq := ((x : Int) - cen.1) ^ 2 + ((y : Int) - cen.2) ^ 2
  4 ≤ dsq && dsq ≤ 16

/-- Paint one grid row `row` (whose first cell has column index `c0` and row
index `r`) with the circle centred at `cen`. -/
def paintRow (cen : Int × Int) (r : Nat) : Nat → List ℚ → List ℚ
  | _, [] => []
  | c, v :: rest =>
      (if inRing cen c r then 0 else v) :: paintRow cen r (c + 1) rest

/-- Paint every grid row, `r0` being the row index of the first row. -/
def paintGrid (cen : Int × Int) : Nat → List (List ℚ) → List (List ℚ)
  | _, [] => []
  | r, row :: rest => paintRow cen r 0 row :: paintGrid cen (r + 1) rest

/-- The in-place `cv2.circle(grid, cen, 3, colour, 3)` call, as the value of
the mutated array. -/
def draw_circle (g : List (List ℚ)) (cen : Int × Int) : List (List ℚ) :=
  paintGrid cen 0 g

/-- The grid that reaches the Local Path Searcher: `occupancy_grid`'s output
mutated in place by the two debug circles of lines 314-315 (sensor origin
`(75, 168)` and the goal cell).  `RRT` receives `self.oc_grid`, which is the
same numpy array the circles were drawn on. -/
def search_grid (img : List (List Nat)) (goal : Int × Int) :
    List (List ℚ) :=
  draw_circle (draw_circle (occupancy_grid img) (75, 168)) goal

/-- Cell lookup in a grid (row-major), with default `0` out of bounds. -/
def gridGet (g : List (List ℚ)) (r c : Nat) : ℚ :=
  (g.getD r []).getD c 0

/-! ## Planner state and external collaborators -/

/-- The mutable planner state that persists across `run_step` calls. -/
structure PlannerState where
  waypoints_queue : List PlanEntry
  waypoint_buffer : List PlanEntry
  rrt_buffer : List Waypoint
  /-- `self.local_target`: never assigned in `__init__`; reading it before
  the first assignment raises `AttributeError` (modelled as `none`). -/
  local_target : Option Waypoint
  target_speed : ℚ
deriving DecidableEq, Repr

/-- External collaborators of one `run_step` tick, all read-only snapshots:
the vehicle/world, the map, the `RRT` searcher, the PID controller, plus the
floating-point geometry of lines 300-309 and the repository's
`pixel_to_world` (both trigonometric, hence kept as oracle fields; the
latter is embedded exactly over `ℝ` as `pixel_to_world_real`). -/
structure Ctx where
  /-- `self._vehicle.get_location()` / `get_transform()` (one per-tick
  snapshot; the simulator does not move the vehicle mid-tick). -/
  vehicle_loc : ℚ × ℚ
  /-- `self._vehicle.get_speed_limit()`. -/
  speed_limit : ℚ
  /-- `self._map.get_waypoint(location)`. -/
  get_waypoint : ℚ × ℚ → Waypoint
  /-- Lines 300-309: the float computation of `(int(self._a), int(self._b))`
  from the current and target waypoints. -/
  computeAB : Waypoint → Waypoint → Int × Int
  /-- `RRT(start, goal, grid).planning(animation=True)` — external searcher;
  returns the (possibly empty) list of path cells. -/
  rrt_planning : Int × Int → Int × Int → List (List ℚ) → List (Int × Int)
  /-- `self.pixel_to_world(x, y)` (floating point; raises at the origin
  cell, see `pixel_to_world_real`). -/
  pixel_to_world : Int × Int → Except PyErr (ℚ × ℚ)
  /-- `VehiclePIDController(...).run_step(target_speed, waypoint)` with the
  selected lateral/longitudinal gain dictionaries. -/
  pid_run_step : ℚ → Waypoint → PIDArgs → PIDArgs → VehicleControl
  /-- `distance_vehicle(waypoint, vehicle_transform)`. -/
  distance_vehicle : Waypoint → ℚ × ℚ → ℚ

/-- Gain-profile selection, lines 365-370: the *raw* `target_speed`
parameter is compared with 50; in Python `None > 50` raises `TypeError`. -/
def select_gains (target_speed : Option ℚ) :
    Except PyErr (PIDArgs × PIDArgs) :=
  match target_speed with
  | none => .error .typeError
  | some v =>
      .ok (if 50 < v then (args_lat_hw_dict, args_long_hw_dict)
           else (args_lat_city_dict, args_long_city_dict))

/-- The rrt-buffer rebuild block, lines 326-350: runs only when
`self.rrt_buffer` is empty; if the waypoint buffer is non-empty it pops the
buffer front *before* the search, then searches, drops the last two path
cells (`self.path[:-2]`), maps each remaining cell through
`pixel_to_world` and `map.get_waypoint`, and `appendleft`s each result, so
the final deque is the reverse of the mapped list. -/
def rebuild_rrt (ctx : Ctx) (goal : Int × Int) (grid : List (List ℚ))
    (buf : List PlanEntry) (rrt : List Waypoint) :
    Except PyErr (List PlanEntry × List Waypoint) :=
  match rrt with
  | _ :: _ => .ok (buf, rrt)
  | [] =>
    match buf with
    | [] => .ok ([], [])
    | _ :: bufRest =>
      let path := ctx.rrt_planning (75, 168) goal grid
      let path2 := path.take (path.length - 2)
      match path2.mapM ctx.pixel_to_world with
      | .error e => .error e
      | .ok locs => .ok (bufRest, (locs.map ctx.get_waypoint).reverse)

/-- Lines 352-354: pop one entry off the rrt buffer as `self.local_target`
when the buffer is non-empty; otherwise `self.local_target` keeps its
previous value (or stays unassigned). -/
def consume_local (rrt : List Waypoint) (lt : Option Waypoint) :
    List Waypoint × Option Waypoint :=
  match rrt with
  | [] => ([], lt)
  | t :: rest => (rest, some t)

/-- `LocalPlanner.run_step(target_speed, rgb, debug)` (lines 241-394); `img`
is the grayscale of the `rgb` perception image.  Returns the control and the
updated planner state, or the Python exception the tick raises. -/
def run_step (ctx : Ctx) (target_speed : Option ℚ) (img : List (List Nat))
    (st : PlannerState) : Except PyErr (VehicleControl × PlannerState) := do
  -- lines 252-255: `self._target_speed`
  let spd := match target_speed with
             | some v => v
             | none => ctx.speed_limit
  -- lines 257-264: empty plan ⇒ full stop
  if st.waypoints_queue = [] then
    return (⟨0, 0, 1, false, false⟩, { st with target_speed := spd })
  -- lines 266-278: buffering; `qb = (waypoints_queue, _waypoint_buffer)`
  let qb ←
    if st.waypoint_buffer = [] then refill_buffer st.waypoints_queue
    else .ok (st.waypoints_queue, st.waypoint_buffer)
  -- lines 281-286: current pose snapshot
  let cw := ctx.get_waypoint ctx.vehicle_loc
  -- lines 291-298: `self._waypoint_buffer[0]`
  match qb.2 with
  | [] => .error .indexError
  | (tw, _) :: _ =>
    -- lines 300-309: float geometry (collaborator field)
    let ab := ctx.computeAB cw tw
    -- the goal cell `(75 - int(self._a), 168 - int(self._b))`
    let goal : Int × Int := (75 - ab.1, 168 - ab.2)
    -- lines 311-321: grid built, debug circles drawn in place on it
    let sg := search_grid img goal
    -- lines 326-350: rrt-buffer rebuild; `br = (_waypoint_buffer, rrt_buffer)`
    let br ← rebuild_rrt ctx goal sg qb.2 st.rrt_buffer
    -- lines 352-354: pop the immediate tracking target;
    -- `cl = (rrt_buffer, local_target)`
    let cl := consume_local br.2 st.local_target
    -- lines 365-370: gain selection on the raw parameter
    let gains ← select_gains target_speed
    -- lines 372-376: controller invocation on `self.local_target`
    match cl.2 with
    | none => .error .attributeError
    | some target =>
      let control := ctx.pid_run_step spd target gains.1 gains.2
      -- lines 379-389: purge consumed waypoints
      let qual : PlanEntry → Bool :=
        fun e => decide (ctx.distance_vehicle e.1 ctx.vehicle_loc < 3)
      return (control,
              { waypoints_queue := qb.1,
                waypoint_buffer := purge_buffer qual br.1,
                rrt_buffer := cl.1, local_target := cl.2,
                target_speed := spd })

/-! ## Concrete instances used by counterexamples and witnesses -/

/-- A local target left over from an earlier tick. -/
def wprev : Waypoint := ⟨7, 7, 0⟩

/-- Distinct plan entries, indexed by their original queue position. -/
def eC2 (i : Nat) : PlanEntry := (⟨100 + i, 0, 0⟩, RoadOption.LANEFOLLOW)

/-- A buffered global target waypoint entry. -/
def bC2 : PlanEntry := (⟨50, 50, 0⟩, RoadOption.LANEFOLLOW)

/-- A second buffered entry. -/
def bC2b : PlanEntry := (⟨60, 60, 0⟩, RoadOption.LANEFOLLOW)

/-- Collaborators whose Local Path Searcher always fails (returns the empty
path) and whose vehicle is far from every buffered waypoint (so the purge
step is a no-op). -/
def ctxEmptySearch : Ctx where
  vehicle_loc := (0, 0)
  speed_limit := 30
  get_waypoint := fun p => ⟨p.1, p.2, 0⟩
  computeAB := fun _ _ => (0, 0)
  rrt_planning := fun _ _ _ => []
  pixel_to_world := fun _ => .ok (0, 0)
  pid_run_step := fun _ w _ _ => ⟨w.x, 0, 0, false, false⟩
  distance_vehicle := fun _ _ => 100

/-- Collaborators whose searcher returns the three-cell path
`[(75, 100), (75, 90), (75, 80)]`. -/
def ctxPathSearch : Ctx where
  vehicle_loc := (0, 0)
  speed_limit := 30
  get_waypoint := fun p => ⟨p.1, p.2, 0⟩
  computeAB := fun _ _ => (0, 0)
  rrt_planning := fun _ _ _ => [(75, 100), (75, 90), (75, 80)]
  pixel_to_world := fun c => .ok ((c.1 : ℚ), (c.2 : ℚ))
  pid_run_step := fun _ w _ _ => ⟨w.x, 0, 0, false, false⟩
  distance_vehicle := fun _ _ => 100

/-- A tiny all-road grayscale image (every pixel has the road value 0). -/
def imgZ : List (List Nat) := [[0, 0, 0]]

/-- A grayscale image in which pixel value 37 occurs 10 times (fewer than
the 500-occurrence rarity threshold). -/
def img37 : List (List Nat) := [List.replicate 10 37]

/-- State before a tick whose search fails: non-empty queue, buffered
global target, empty rrt buffer, stale stored local target. -/
def stC2 : PlannerState :=
  { waypoints_queue := [eC2 0, eC2 1, eC2 2, eC2 3, eC2 4],
    waypoint_buffer := [bC2],
    rrt_buffer := [],
    local_target := some wprev,
    target_speed := 0 }

/-- The state `run_step` leaves after the failed-search tick on `stC2`. -/
def stC2a : PlannerState :=
  { waypoints_queue := [eC2 0, eC2 1, eC2 2, eC2 3, eC2 4],
    waypoint_buffer := [],
    rrt_buffer := [],
    local_target := some wprev,
    target_speed := 30 }

/-- The state after the subsequent tick on `stC2a`. -/
def stC2b : PlannerState :=
  { waypoints_queue := [],
    waypoint_buffer := [],
    rrt_buffer := [],
    local_target := some wprev,
    target_speed := 30 }

/-- A failed-search tick state with two buffered entries. -/
def stC6 : PlannerState :=
  { waypoints_queue := [eC2 0, eC2 1, eC2 2, eC2 3, eC2 4],
    waypoint_buffer := [bC2, bC2b],
    rrt_buffer := [],
    local_target := some wprev,
    target_speed := 0 }

/-- A state with both the queue and the buffer empty. -/
def stEmpty : PlannerState :=
  { waypoints_queue := [], waypoint_buffer := [], rrt_buffer := [],
    local_target := none, target_speed := 0 }

/-- A state with a non-empty queue, buffer and rrt buffer. -/
def stW10 : PlannerState :=
  { waypoints_queue := [eC2 0], waypoint_buffer := [bC2],
    rrt_buffer := [wprev], local_target := none, target_speed := 0 }

/-- A failed-search tick state used for the amended-claim witness. -/
def stC2w : PlannerState :=
  { waypoints_queue := [eC2 1], waypoint_buffer := [bC2],
    rrt_buffer := [], local_target := some wprev, target_speed := 5 }

/-- A three-entry waypoint queue. -/
def qShort : List PlanEntry := [eC2 0, eC2 1, eC2 2]

/-- A ten-entry waypoint queue. -/
def qTen : List PlanEntry :=
  [eC2 0, eC2 1, eC2 2, eC2 3, eC2 4, eC2 5, eC2 6, eC2 7, eC2 8, eC2 9]

/-- A concrete purge qualifier (within minimum distance of the vehicle). -/
def qualW : PlanEntry → Bool := fun e => decide (e.1.x < 3)

/-- A concrete buffer whose entries qualify at indices 0 and 2. -/
def lW : List PlanEntry :=
  [(⟨1, 0, 0⟩, RoadOption.LANEFOLLOW), (⟨5, 0, 0⟩, RoadOption.LANEFOLLOW),
   (⟨2, 0, 0⟩, RoadOption.LANEFOLLOW), (⟨9, 0, 0⟩, RoadOption.LANEFOLLOW)]

/-! ## Helper lemmas -/

/-- `Except.bind` on a success. -/
theorem ebind_ok {α β : Type} (a : α) (f : α → Except PyErr β) :
    (Except.ok a >>= f) = f a := rfl

/-- `Except.bind` on an error. -/
theorem ebind_err {α β : Type} (e : PyErr) (f : α → Except PyErr β) :
    ((Except.error e : Except PyErr α) >>= f) = Except.error e := rfl

/-- If every continuation fails, a bound computation yields no value. -/
theorem toOption_bind_none {α β : Type} (x : Except PyErr α)
    (f : α → Except PyErr β) (h : ∀ a, (f a).toOption = none) :
    (x >>= f).toOption = none := by
  cases x with
  | error e => rfl
  | ok a => exact h a

/-! ## Claim theorems -/

/-- Claim C1 (code bug): the Occupancy Grid Builder classifies a pixel value
with total frequency below 500 as FREE (grid value 0, the same value as the
road), not as occupied (1): in `img37` the value 37 occurs 10 times and
every one of its cells is mapped to 0. -/
theorem occupancy_grid_rare_value_free :
    countVal img37 37 = 10 ∧
    occupancy_grid img37 = [List.replicate 10 (0 : ℚ)] := by
  constructor <;> rfl

/-- Claim C3 (code bug): at the sensor-origin cell (75, 168) the pixel
distance `d` is zero and `pixel_to_world` evaluates `asin(dx / d)`, raising
`ZeroDivisionError` (modelled as `none`) instead of returning the vehicle's
location — for every vehicle pose and yaw. -/
theorem pixel_to_world_origin_raises (cw_x cw_y cw_yaw : ℝ) :
    pixel_to_world_real cw_x cw_y cw_yaw 75 168 = none := by
  unfold pixel_to_world_real
  norm_num

/-- Claim C4 (code bug): on a non-empty three-entry queue with an empty
buffer, the refill step raises `IndexError` (the unguarded four-entry skip
pops from an emptied deque) instead of completing. -/
theorem refill_buffer_short_queue_raises :
    refill_buffer qShort = .error .indexError := rfl

/-- Claim C5: one refill of a ten-entry queue discards entries 0-3, buffers
entry 4 (the buffer's first element), discards entries 5-8, buffers entry 9,
and exhausts the queue; the retained remainder of the queue is empty. -/
theorem refill_buffer_ten_entries :
    refill_buffer qTen = .ok ([], [eC2 4, eC2 9]) := rfl

/-- If no entry qualifies, the `max_index` scan keeps its accumulator. -/
theorem max_qual_aux_of_none (qual : PlanEntry → Bool) :
    ∀ (l : List PlanEntry) (i : Nat) (best : Option Nat),
      (∀ j (hj : j < l.length), qual l[j] = false) →
      max_qual_aux qual l i best = best
  | [], _, _, _ => rfl
  | e :: rest, i, best, h => by
      have he : qual e = false := h 0 (by simp)
      have ih := max_qual_aux_of_none qual rest (i + 1) best
        (fun j hj => by simpa using h (j + 1) (by simpa using hj))
      simp [max_qual_aux, he, ih]

/-- If `m` is the highest qualifying index, the scan returns `i + m`. -/
theorem max_qual_aux_of_max (qual : PlanEntry → Bool) :
    ∀ (l : List PlanEntry) (m : Nat) (hm : m < l.length) (i : Nat)
      (best : Option Nat), qual l[m] = true →
      (∀ j (hj : j < l.length), m < j → qual l[j] = false) →
      max_qual_aux qual l i best = some (i + m)
  | [], m, hm, _, _, _, _ => absurd hm (by simp)
  | e :: rest, 0, hm, i, best, hq, hmax => by
      have he : qual e = true := by simpa using hq
      have hrest := max_qual_aux_of_none qual rest (i + 1) (some i)
        (fun j hj => hmax (j + 1) (by simpa using hj) (Nat.succ_pos j))
      simp [max_qual_aux, he, hrest]
  | e :: rest, m + 1, hm, i, best, hq, hmax => by
      have hrm : m < rest.length := by simpa using hm
      have ih := max_qual_aux_of_max qual rest m hrm (i + 1)
        (if qual e then some i else best) (by simpa using hq)
        (fun j hj hmj => by
          simpa using hmax (j + 1) (by simpa using hj) (by omega))
      simp only [max_qual_aux, ih]
      congr 1
      omega

/-- Claim C8: the purge step removes exactly the contiguous prefix of the
buffer ending at the highest index whose entry is within the minimum
distance of the vehicle pose; it is a no-op when no entry qualifies; and
for every qualifier and buffer the removed set is a prefix (the survivors
are `l.drop k` for some `k`), never a non-contiguous subset. -/
theorem purge_buffer_contiguous (qual : PlanEntry → Bool)
    (l : List PlanEntry) :
    ((∀ j (hj : j < l.length), qual l[j] = false) → purge_buffer qual l = l) ∧
    (∀ m (hm : m < l.length), qual l[m] = true →
      (∀ j (hj : j < l.length), m < j → qual l[j] = false) →
      purge_buffer qual l = l.drop (m + 1)) ∧
    (∃ k, purge_buffer qual l = l.drop k) := by
  refine ⟨?_, ?_, ?_⟩
  · intro h
    simp [purge_buffer, max_qual_index, max_qual_aux_of_none qual l 0 none h]
  · intro m hm hq hmax
    simp [purge_buffer, max_qual_index,
      max_qual_aux_of_max qual l m hm 0 none hq hmax]
  · cases h : max_qual_index qual l with
    | none => exact ⟨0, by simp [purge_buffer, h]⟩
    | some m => exact ⟨m + 1, by simp [purge_buffer, h]⟩

/-- Witness for C8 on the concrete buffer `lW`: indices 0 and 2 qualify, so
the purge pops the prefix of length 3 and keeps the last entry. -/
theorem purge_buffer_contiguous_witness :
    (2 : Nat) < lW.length ∧ purge_buffer qualW lW = lW.drop 3 :=
  ⟨by decide,
   (purge_buffer_contiguous qualW lW).2.1 2 (by decide) (by decide)
     (by decide)⟩

/-- Claim C7: when the Waypoint Queue (and hence, a fortiori, when also the
Buffer) is empty, `run_step` returns exactly the full-stop command
`{steer 0, throttle 0, brake 1, hand_brake false, manual_gear_shift false}`
and touches no other state than `_target_speed`.  The collaborator context
`ctx` — including the searcher and the tracking controller — is universally
quantified and absent from the result, so neither is invoked. -/
theorem run_step_empty_plan_full_stop (ctx : Ctx) (target_speed : Option ℚ)
    (img : List (List Nat)) (st : PlannerState)
    (hq : st.waypoints_queue = []) (_hb : st.waypoint_buffer = []) :
    run_step ctx target_speed img st =
      .ok (⟨0, 0, 1, false, false⟩,
           { st with target_speed := target_speed.getD ctx.speed_limit }) := by
  cases target_speed <;> simp [run_step, hq] <;> rfl

/-- Witness for C7 at a concrete empty-plan state. -/
theorem run_step_empty_plan_full_stop_witness :
    stEmpty.waypoints_queue = [] ∧ stEmpty.waypoint_buffer = [] ∧
    run_step ctxEmptySearch none imgZ stEmpty =
      .ok (⟨0, 0, 1, false, false⟩,
           { stEmpty with
              target_speed := (none : Option ℚ).getD ctxEmptySearch.speed_limit }) :=
  ⟨rfl, rfl,
   run_step_empty_plan_full_stop ctxEmptySearch none imgZ stEmpty rfl rfl⟩

/-- Painting a row preserves its length. -/
theorem paintRow_length (cen : Int × Int) (r : Nat) :
    ∀ (c0 : Nat) (row : List ℚ),
      (paintRow cen r c0 row).length = row.length
  | _, [] => rfl
  | c0, _ :: rest => by simp [paintRow, paintRow_length cen r (c0 + 1) rest]

/-- Painting a grid preserves its number of rows. -/
theorem paintGrid_length (cen : Int × Int) :
    ∀ (r0 : Nat) (g : List (List ℚ)),
      (paintGrid cen r0 g).length = g.length
  | _, [] => rfl
  | r0, _ :: rest => by
      simp [paintGrid, paintGrid_length cen (r0 + 1) rest]

/-- Cell-wise description of a painted row. -/
theorem paintRow_getD (cen : Int × Int) (r : Nat) :
    ∀ (row : List ℚ) (c0 i : Nat), i < row.length →
      (paintRow cen r c0 row).getD i 0 =
        if inRing cen (c0 + i) r then 0 else row.getD i 0
  | [], _, i, h => absurd h (by simp)
  | v :: rest, c0, 0, _ => by simp [paintRow]
  | v :: rest, c0, i + 1, h => by
      have ih := paintRow_getD cen r rest (c0 + 1) i (by simpa using h)
      have harg : c0 + 1 + i = c0 + (i + 1) := by omega
      rw [harg] at ih
      simpa [paintRow] using ih

/-- Row-wise description of a painted grid. -/
theorem paintGrid_getD (cen : Int × Int) :
    ∀ (g : List (List ℚ)) (r0 i : Nat), i < g.length →
      (paintGrid cen r0 g).getD i [] =
        paintRow cen (r0 + i) 0 (g.getD i [])
  | [], _, i, h => absurd h (by simp)
  | row :: rest, r0, 0, _ => by simp [paintGrid]
  | row :: rest, r0, i + 1, h => by
      have ih := paintGrid_getD cen rest (r0 + 1) i (by simpa using h)
      have harg : r0 + 1 + i = r0 + (i + 1) := by omega
      rw [harg] at ih
      simpa [paintGrid] using ih

/-- Cell-wise description of one drawn circle. -/
theorem draw_circle_getD (cen : Int × Int) (g : List (List ℚ)) (r c : Nat)
    (hr : r < g.length) (hc : c < (g.getD r []).length) :
    gridGet (draw_circle g cen) r c =
      if inRing cen c r then 0 else gridGet g r c := by
  unfold gridGet draw_circle
  rw [paintGrid_getD cen g 0 r hr, Nat.zero_add,
    paintRow_getD cen r (g.getD r []) 0 c hc, Nat.zero_add]

/-- Claim C9 (amended): the grid handed to the Local Path Searcher is the
Occupancy Grid Builder's output overwritten with the painted value 0 at
every in-bounds cell covered by either debug circle (sensor origin
`(75, 168)` or the goal cell); away from the circles it coincides with the
builder's output.  In particular it differs from the builder's output at a
covered cell exactly when the built value there is nonzero. -/
theorem search_grid_pointwise (img : List (List Nat)) (goal : Int × Int)
    (r c : Nat) (hr : r < (occupancy_grid img).length)
    (hc : c < ((occupancy_grid img).getD r []).length) :
    gridGet (search_grid img goal) r c =
      if inRing (75, 168) c r || inRing goal c r
      then 0 else gridGet (occupancy_grid img) r c := by
  unfold search_grid
  have hr1 : r < (draw_circle (occupancy_grid img) (75, 168)).length := by
    unfold draw_circle
    rw [paintGrid_length]
    exact hr
  have hc1 :
      c < ((draw_circle (occupancy_grid img) (75, 168)).getD r []).length := by
    unfold draw_circle
    rw [paintGrid_getD (75, 168) (occupancy_grid img) 0 r hr,
      paintRow_length]
    exact hc
  rw [draw_circle_getD goal _ r c hr1 hc1,
    draw_circle_getD (75, 168) (occupancy_grid img) r c hr hc]
  cases hgoal : inRing goal c r <;>
    cases horig : inRing (75, 168) c r <;>
      simp [hgoal, horig]

/-- Witness for the amended C9 at a concrete in-bounds cell of `img37`. -/
theorem search_grid_pointwise_witness :
    (0 : Nat) < (occupancy_grid img37).length ∧
    gridGet (search_grid img37 (75, 168)) 0 0 =
      (if inRing (75, 168) 0 0 || inRing (75, 168) 0 0
       then 0 else gridGet (occupancy_grid img37) 0 0) :=
  ⟨by decide,
   search_grid_pointwise img37 (75, 168) 0 0 (by decide) (by decide)⟩

/-- Counterexample to C9 as stated: a tick on the all-road image `imgZ`
whose goal cell is `(0, 0)` covers the in-bounds cell (column 2, row 0)
with the goal circle, yet the grid the searcher receives does NOT differ
there from the Occupancy Grid Builder's output — both already hold the
painted value 0. -/
theorem search_grid_coincides_at_covered_cell :
    inRing (0, 0) 2 0 = true ∧
    gridGet (occupancy_grid imgZ) 0 2 = 0 ∧
    gridGet (search_grid imgZ (0, 0)) 0 2 = gridGet (occupancy_grid imgZ) 0 2 :=
  ⟨rfl, rfl, rfl⟩

/-- The rebuild block on a failed search: the Buffer front is popped even
though no local targets are produced. -/
theorem rebuild_rrt_empty_path (ctx : Ctx) (goal : Int × Int)
    (grid : List (List ℚ)) (b : PlanEntry) (bufRest : List PlanEntry)
    (hsearch : ctx.rrt_planning (75, 168) goal grid = []) :
    rebuild_rrt ctx goal grid (b :: bufRest) [] = .ok (bufRest, []) := by
  simp only [rebuild_rrt, hsearch]
  rfl

/-- Claim C6 (amended): when the Local Target Queue is empty and the Buffer
is non-empty, the rebuild step pops the consumed global target from the
Buffer front unconditionally — before the search, hence regardless of
success; the last two cells of the returned path are dropped
(`take (length - 2)`), the remaining cells are mapped through the
Coordinate Mapper and the map collaborator, and the `appendleft` loop makes
the new Local Target Queue the reverse of the mapped list (so the queue is
consumed starting from the path cell pushed last); and when the Local
Target Queue is non-empty the rebuild step leaves both queues untouched
(the Local Target Queue is rebuilt only when empty). -/
theorem rebuild_rrt_exact (ctx : Ctx) (goal : Int × Int)
    (grid : List (List ℚ)) (b : PlanEntry) (bufRest : List PlanEntry)
    (locs : List (ℚ × ℚ))
    (hmap : ((ctx.rrt_planning (75, 168) goal grid).take
        ((ctx.rrt_planning (75, 168) goal grid).length - 2)).mapM
          ctx.pixel_to_world = .ok locs) :
    rebuild_rrt ctx goal grid (b :: bufRest) [] =
      .ok (bufRest, (locs.map ctx.get_waypoint).reverse) ∧
    (∀ (t : Waypoint) (rrt : List Waypoint),
      rebuild_rrt ctx goal grid (b :: bufRest) (t :: rrt) =
        .ok (b :: bufRest, t :: rrt)) := by
  constructor
  · simp only [rebuild_rrt]
    rw [hmap]
  · intro t rrt
    rfl

/-- Witness for the amended C6: a three-cell path keeps only its first
cell, which is mapped and becomes the single local target; a non-empty
Local Target Queue blocks the rebuild. -/
theorem rebuild_rrt_exact_witness :
    rebuild_rrt ctxPathSearch (70, 160) [[1]] (bC2 :: [bC2b]) [] =
      .ok ([bC2b],
        (([((75 : ℚ), (100 : ℚ))].map ctxPathSearch.get_waypoint)).reverse) ∧
    rebuild_rrt ctxPathSearch (70, 160) [[1]] (bC2 :: [bC2b]) [wprev] =
      .ok (bC2 :: [bC2b], [wprev]) :=
  ⟨(rebuild_rrt_exact ctxPathSearch (70, 160) [[1]] bC2 [bC2b]
      [((75 : ℚ), (100 : ℚ))] rfl).1,
   (rebuild_rrt_exact ctxPathSearch (70, 160) [[1]] bC2 [bC2b]
      [((75 : ℚ), (100 : ℚ))] rfl).2 wprev []⟩

/-- Counterexample to C6 as stated ("popped ... on success, and only on
success"): a full tick whose searcher fails (returns the empty path) still
pops the global target `bC2` off the Buffer front — the resulting buffer
is `[bC2b]` although no path was found and the Local Target Queue stayed
empty. -/
theorem run_step_failed_search_pops :
    ctxEmptySearch.rrt_planning (75, 168) (75, 168)
      (search_grid imgZ (75, 168)) = [] ∧
    run_step ctxEmptySearch (some 30) imgZ stC6 =
      .ok (⟨7, 0, 0, false, false⟩,
        { waypoints_queue := [eC2 0, eC2 1, eC2 2, eC2 3, eC2 4],
          waypoint_buffer := [bC2b],
          rrt_buffer := [],
          local_target := some wprev,
          target_speed := 30 }) :=
  ⟨rfl, rfl⟩

/-- Claim C2 (amended): when the searcher returns an empty path on a tick
with a buffered global target and an empty Local Target Queue, the Local
Target Queue remains empty, but there is no fallback to the global target:
the Buffer front is popped anyway, and the tick tracks the stale previously
stored local target `w` (so the next tick does not track the Buffer-front
global target either; if no local target was ever stored the tick raises
`AttributeError` instead of completing). -/
theorem run_step_empty_path_stale (ctx : Ctx) (img : List (List Nat))
    (st : PlannerState) (b : PlanEntry) (rest : List PlanEntry)
    (w : Waypoint) (v : ℚ)
    (hq : st.waypoints_queue ≠ [])
    (hb : st.waypoint_buffer = b :: rest)
    (hr : st.rrt_buffer = [])
    (hlt : st.local_target = some w)
    (hsearch : ∀ s g grid, ctx.rrt_planning s g grid = []) :
    run_step ctx (some v) img st =
      .ok (ctx.pid_run_step v w
             (if 50 < v then args_lat_hw_dict else args_lat_city_dict)
             (if 50 < v then args_long_hw_dict else args_long_city_dict),
           { waypoints_queue := st.waypoints_queue,
             waypoint_buffer :=
               purge_buffer
                 (fun e =>
                   decide (ctx.distance_vehicle e.1 ctx.vehicle_loc < 3))
                 rest,
             rrt_buffer := [],
             local_target := some w,
             target_speed := v }) := by
  obtain ⟨btw, bro⟩ := b
  unfold run_step
  rw [if_neg hq, hb, hr, hlt]
  rw [if_neg (List.cons_ne_nil (btw, bro) rest)]
  rw [ebind_ok]
  dsimp only [bind, Except.bind, pure, Except.pure]
  rw [rebuild_rrt_empty_path ctx _ _ (btw, bro) rest (hsearch _ _ _)]
  dsimp only [select_gains, consume_local]
  by_cases h50 : 50 < v <;> simp [h50]

/-- Witness for the amended C2 at a concrete failed-search tick. -/
theorem run_step_empty_path_stale_witness :
    run_step ctxEmptySearch (some 5) imgZ stC2w =
      .ok (ctxEmptySearch.pid_run_step 5 wprev
             (if (50 : ℚ) < 5 then args_lat_hw_dict else args_lat_city_dict)
             (if (50 : ℚ) < 5 then args_long_hw_dict else args_long_city_dict),
           { waypoints_queue := stC2w.waypoints_queue,
             waypoint_buffer :=
               purge_buffer
                 (fun e =>
                   decide (ctxEmptySearch.distance_vehicle e.1
                     ctxEmptySearch.vehicle_loc < 3))
                 [],
             rrt_buffer := [],
             local_target := some wprev,
             target_speed := 5 }) :=
  run_step_empty_path_stale ctxEmptySearch imgZ stC2w bC2 [] wprev 5
    (by decide) rfl rfl rfl (fun _ _ _ => rfl)

/-- Counterexample to C2 as stated: two consecutive ticks under a searcher
that always fails.  The first tick completes and leaves the Local Target
Queue empty (so far consistent with the claim), but the next tick's
immediate tracking target is still the stale `wprev`, NOT the global
target waypoint `eC2 4` that the refill places at the Waypoint Buffer
front (final conjunct: the two differ). -/
theorem run_step_no_fallback_next_tick :
    run_step ctxEmptySearch (some 30) imgZ stC2 =
      .ok (⟨7, 0, 0, false, false⟩, stC2a) ∧
    refill_buffer stC2a.waypoints_queue = .ok ([], [eC2 4]) ∧
    run_step ctxEmptySearch (some 30) imgZ stC2a =
      .ok (⟨7, 0, 0, false, false⟩, stC2b) ∧
    stC2b.local_target = some wprev ∧
    some (eC2 4).1 ≠ some wprev :=
  ⟨rfl, rfl, rfl, rfl, by simp [eC2, wprev]⟩

/-- Claim C10: with the `target_speed` argument omitted/`None` and a
non-empty Waypoint Queue, `run_step` never produces a command (first
conjunct: no tick with `None` yields an `ok` result), because the gain
selection of lines 365-370 compares the raw parameter with 50 and Python's
`None > 50` raises `TypeError`; on any tick that reaches the selection
(e.g. whenever the Buffer and the Local Target Queue are non-empty) the
raised error is exactly `TypeError` (second conjunct).  The selection
succeeds only for an explicit numeric speed: strictly above 50 it picks the
highway profiles, otherwise the city profiles (third conjunct). -/
theorem run_step_none_speed_raises (ctx : Ctx) (img : List (List Nat))
    (st : PlannerState) (hq : st.waypoints_queue ≠ []) :
    (run_step ctx none img st).toOption = none ∧
    (st.waypoint_buffer ≠ [] → st.rrt_buffer ≠ [] →
      run_step ctx none img st = .error .typeError) ∧
    (∀ v : ℚ, select_gains (some v) =
      .ok (if 50 < v then (args_lat_hw_dict, args_long_hw_dict)
           else (args_lat_city_dict, args_long_city_dict))) := by
  refine ⟨?_, ?_, fun v => rfl⟩
  · unfold run_step
    rw [if_neg hq]
    apply toOption_bind_none
    intro y
    dsimp only
    split
    all_goals
      apply toOption_bind_none
      rintro ⟨q1, buf1⟩
      dsimp only
      cases buf1 with
      | nil => rfl
      | cons hd tl =>
        obtain ⟨tw, ro⟩ := hd
        dsimp only
        apply toOption_bind_none
        intro br
        rfl
  · intro hb hr
    rcases hbc : st.waypoint_buffer with _ | ⟨⟨tw, ro⟩, tl⟩
    · exact absurd hbc hb
    rcases hrc : st.rrt_buffer with _ | ⟨t, rl⟩
    · exact absurd hrc hr
    unfold run_step
    rw [if_neg hq, hbc, hrc]
    rw [if_neg (List.cons_ne_nil _ _)]
    rw [ebind_ok]
    dsimp only [bind, Except.bind, pure, Except.pure]
    rfl

/-- Witness for C10 at a concrete tick with non-empty queue, buffer and
Local Target Queue: the tick yields no command and raises `TypeError`. -/
theorem run_step_none_speed_raises_witness :
    stW10.waypoints_queue ≠ [] ∧
    (run_step ctxEmptySearch none imgZ stW10).toOption = none ∧
    run_step ctxEmptySearch none imgZ stW10 = .error .typeError :=
  ⟨by decide,
   (run_step_none_speed_raises ctxEmptySearch imgZ stW10 (by decide)).1,
   (run_step_none_speed_raises ctxEmptySearch imgZ stW10 (by decide)).2.1
     (by decide) (by decide)⟩
